import Mathlib

/-!
Verification of the Job Orchestration and Result Aggregation core of the
kombat-vision frontend. The definitions below are shallow embeddings of the
TypeScript source: the api service appended to `ControlPanel.tsx` (ApiError,
apiRequest, api.healthCheck, api.uploadVideo, api.getProcessingStatus,
api.getDetections, api.pollProcessingStatus), the dashboard handlers in
`TacticalDashboard.tsx` (handleVideoUpload, handleStartProcessing and its
onProgress callback), and the drop handler in `VideoUpload.tsx` (onDrop).
JavaScript numbers are modelled as `ℚ` (for f64 fields) and `ℕ`/`ℤ` (for
counts and Math.floor results); promises that settle are modelled as
`Except` values over a scripted list of fetch outcomes.
-/

namespace KombatVision

/-! ## Data model (interfaces of src/lib/api.ts, appended to ControlPanel.tsx) -/

/-- Optional `thermal_signature` field of `DetectionResult`. -/
structure ThermalSignature where
  mean_temp : ℚ
  max_temp : ℚ
  area : ℚ
deriving DecidableEq

/-- Interface `DetectionResult`. -/
structure DetectionResult where
  bbox : ℚ × ℚ × ℚ × ℚ
  confidence : ℚ
  class_id : ℤ
  class_name : String
  thermal_signature : Option ThermalSignature
deriving DecidableEq

/-- Interface `FrameDetection`. -/
structure FrameDetection where
  frame_number : ℕ
  timestamp : ℚ
  detections : List DetectionResult
  count : ℕ
deriving DecidableEq

/-- Field `current_video` of `ProcessingStatus`. -/
structure CurrentVideo where
  filename : String
  path : String
  size : ℕ
  uploaded_at : ℚ
deriving DecidableEq

/-- Interface `ProcessingStatus`: the payload of GET /processing-status. -/
structure ProcessingStatus where
  is_processing : Bool
  progress : ℚ
  current_video : Option CurrentVideo
  detections_count : ℕ
  slam_status : String
deriving DecidableEq

/-- Per-class entry of the `summary` record of `DetectionSummary`. -/
structure ClassStat where
  count : ℕ
  max_confidence : ℚ
deriving DecidableEq

/-- Field `performance` of `DetectionSummary`. -/
structure Performance where
  total_detections : ℕ
  avg_fps : ℚ
  avg_confidence : ℚ
  processing_time_ms : ℚ
  frames_processed : ℕ
  video_duration_sec : ℚ
deriving DecidableEq

/-- Interface `DetectionSummary`: the payload of GET /detections. The
`Record<string, ...>` summary is rendered as an association list. -/
structure DetectionSummary where
  detections : List FrameDetection
  total_count : ℕ
  frames_processed : ℕ
  video : Option String
  summary : List (String × ClassStat)
  performance : Performance
deriving DecidableEq

/-- Payload of GET / (api.healthCheck). -/
structure HealthResponse where
  message : String
  status : String
deriving DecidableEq

/-- Payload of POST /upload-video (api.uploadVideo). -/
structure UploadResponse where
  message : String
  filename : String
  size : ℕ
  status : String
deriving DecidableEq

/-- Payload of POST /start-processing (api.startProcessing). -/
structure StartResponse where
  message : String
  video : String
  status : String
  pipeline : String
deriving DecidableEq

/-! ## Errors and the fetch model -/

/-- A thrown JavaScript error as the api layer distinguishes them:
`ApiError` (the class defined in the api service, carrying an HTTP status and
a message) versus any other `Error` (TypeError from fetch, SyntaxError from
response.json, ...), of which only the message is relevant here. -/
inductive JsError where
  | apiError (status : ℕ) (message : String)
  | otherError (message : String)
deriving DecidableEq

/-- The `name` discriminator used by `error instanceof ApiError`. -/
def isApiError : JsError → Bool
  | .apiError _ _ => true
  | .otherError _ => false

/-- The `message` property every JavaScript Error carries. -/
def jsMessage : JsError → String
  | .apiError _ m => m
  | .otherError m => m

/-- Outcome of one `fetch` call as observed by the api layer: either the
promise rejects with a transport-level error carrying a message, or a
response arrives with an HTTP status, the text of its body, and the result
of parsing that body as JSON into the expected payload type (a parse
failure carries the SyntaxError message). -/
inductive FetchOutcome (T : Type) where
  | transportError (message : String)
  | response (status : ℕ) (bodyText : String) (parsed : Except String T)

/-- Property `Response.ok` of the fetch API: status in the range 200-299. -/
def responseOk (status : ℕ) : Bool := 200 ≤ status && status < 300

/-- Shallow embedding of `apiRequest` (api service): on a non-ok response it
throws `ApiError(response.status, errorText or a fallback mentioning the
status)`; any other failure (transport rejection, JSON parse failure) is
caught and rethrown as `ApiError(0, 'Network error: ' + message)`; an
`ApiError` thrown inside the try block is rethrown unchanged. -/
def apiRequest {T : Type} : FetchOutcome T → Except JsError T
  | .transportError m => .error (.apiError 0 ("Network error: " ++ m))
  | .response status bodyText parsed =>
    if responseOk status then
      match parsed with
      | .ok v => .ok v
      | .error m => .error (.apiError 0 ("Network error: " ++ m))
    else
      .error (.apiError status (if bodyText = "" then "HTTP " ++ toString status else bodyText))

/-- Shallow embedding of `api.uploadVideo`: it performs its own `fetch` with
no try/catch around it. A non-ok response throws
`ApiError(status, errorText or fallback)`; a transport rejection or a JSON
parse failure propagates as the raw (non-ApiError) error. -/
def uploadVideo : FetchOutcome UploadResponse → Except JsError UploadResponse
  | .transportError m => .error (.otherError m)
  | .response status bodyText parsed =>
    if responseOk status then
      match parsed with
      | .ok v => .ok v
      | .error m => .error (.otherError m)
    else
      .error (.apiError status
        (if bodyText = "" then "Upload failed: HTTP " ++ toString status else bodyText))

/-- A connectivity probe together with the time at which its underlying
fetch promise settles. The latency is recorded so that timeout behavior can
be stated; `apiRequest` itself never consults it. -/
structure TimedProbe where
  latencyMs : ℕ
  outcome : FetchOutcome HealthResponse

/-- Shallow embedding of `api.healthCheck`: a single `apiRequest('/')`. The
code installs no deadline of any kind, so the result is whatever the fetch
outcome dictates, whenever it arrives. -/
def healthCheck (p : TimedProbe) : Except JsError HealthResponse :=
  apiRequest p.outcome

/-! ## StatusPoller: api.pollProcessingStatus -/

deriving instance DecidableEq for Except

/-- The observable result of one run of `api.pollProcessingStatus` against a
scripted list of fetch outcomes for the successive GET /processing-status
requests: the list of `onProgress` invocations in arrival order, the settled
value of the returned promise (`some (.ok st)` for resolve, `some (.error e)`
for reject, `none` when the script runs out while the job is still
processing), and the number of status requests issued. -/
structure PollRun where
  snapshots : List ProcessingStatus
  result : Option (Except JsError ProcessingStatus)
  requests : ℕ
deriving DecidableEq

/-- Shallow embedding of `api.pollProcessingStatus`: each iteration awaits
one `getProcessingStatus` (an `apiRequest`); on success it invokes
`onProgress(status)` and then either resolves (when `is_processing` is
false) or schedules the next iteration after the interval; on failure it
rejects with the error. The recursion consumes the scripted outcomes in
order, exactly as the iterations would. -/
def pollProcessingStatus : List (FetchOutcome ProcessingStatus) → PollRun
  | [] => ⟨[], none, 0⟩
  | r :: rest =>
    match (apiRequest r : Except JsError ProcessingStatus) with
    | .error e => ⟨[], some (.error e), 1⟩
    | .ok st =>
      if st.is_processing then
        let run := pollProcessingStatus rest
        ⟨st :: run.snapshots, run.result, run.requests + 1⟩
      else
        ⟨[st], some (.ok st), 1⟩

/-- A fetch outcome delivering status `st` successfully (HTTP 200, parsed). -/
def okStatusOutcome (st : ProcessingStatus) : FetchOutcome ProcessingStatus :=
  .response 200 "" (.ok st)

/-- Scheduling events of one run of the polling loop, in program order:
`request i` marks the i-th GET /processing-status being issued (the await
begins), `settle i` marks that request's promise settling, `snapshot`
marks an `onProgress` invocation, `sleep` marks the setTimeout delay before
the next request. The next `request` can only appear after the `settle` of
the previous one because it is issued from the continuation that runs when
the await completes. -/
inductive PollEvent where
  | request (i : ℕ)
  | settle (i : ℕ)
  | snapshot (st : ProcessingStatus)
  | sleep (ms : ℕ)
deriving DecidableEq

/-- Event predicate: a status request being issued. -/
def isRequestEv : PollEvent → Bool
  | .request _ => true
  | _ => false

/-- Event predicate: a status request settling. -/
def isSettleEv : PollEvent → Bool
  | .settle _ => true
  | _ => false

/-- The scheduling trace of `api.pollProcessingStatus`, reading the i-th
scripted fetch outcome for the i-th request. Each iteration issues one
request, awaits it, and only then (on an ongoing status) sleeps and issues
the next — the transcription of `await this.getProcessingStatus()` followed
by `setTimeout(poll, intervalMs)` in the resolved continuation. -/
def pollEvents (intervalMs : ℕ) : ℕ → List (FetchOutcome ProcessingStatus) → List PollEvent
  | _, [] => []
  | i, r :: rest =>
    PollEvent.request i :: PollEvent.settle i ::
      match (apiRequest r : Except JsError ProcessingStatus) with
      | .error _ => []
      | .ok st =>
        PollEvent.snapshot st ::
          if st.is_processing then
            PollEvent.sleep intervalMs :: pollEvents intervalMs (i + 1) rest
          else []

/-! ## Dashboard state and handlers (TacticalDashboard.tsx) -/

/-- A dropped/selected file as the handlers see it: `name`, `size` and the
declared media `type`. -/
structure VideoFile where
  name : String
  size : ℕ
  type : String
deriving DecidableEq

/-- The `status` state variable of the dashboard. -/
inductive Status where
  | idle
  | processing
  | completed
  | error
deriving DecidableEq

/-- One toast notification (variant destructive or default, title,
description) — the only error-surfacing mechanism the dashboard has. -/
structure Toast where
  destructive : Bool
  title : String
  description : String
deriving DecidableEq

/-- The React state variables of `TacticalDashboard`, gathered into one
record. `currentFrame` is an `ℤ` because it stores a `Math.floor` result. -/
structure DashState where
  uploadedVideo : Option VideoFile
  videoUrl : String
  isProcessing : Bool
  progress : ℚ
  currentFrame : ℤ
  totalFrames : ℕ
  detectedTargets : ℕ
  status : Status
  detectionSummary : Option DetectionSummary
  backendConnected : Bool
deriving DecidableEq

/-- Function `URL.createObjectURL`, modelled as an injective tag of the file name
(the handlers only store the resulting string). -/
def objectUrlOf (f : VideoFile) : String := "blob:" ++ f.name

/-- The `onProgress` callback installed by `handleStartProcessing`
(TacticalDashboard.tsx): `setProgress(status.progress)`,
`setDetectedTargets(status.detections_count)`, and — only when
`totalFrames > 0` — `setCurrentFrame(Math.floor((status.progress / 100) *
totalFrames))`. There is no clamping and no staleness check of any kind. -/
def applyOnProgress (s : DashState) (st : ProcessingStatus) : DashState :=
  let s1 := { s with progress := st.progress, detectedTargets := st.detections_count }
  if 0 < s1.totalFrames then
    { s1 with currentFrame := ⌊st.progress / 100 * (s1.totalFrames : ℚ)⌋ }
  else s1

/-- The frame estimate of the `onProgress` callback as a pure function:
`Math.floor((progressPercent / 100) * totalFrames)` when `totalFrames > 0`,
and no value at all (the update is skipped) when the frame count is 0. -/
def estimateFrame (progressPercent : ℚ) (totalFrames : ℕ) : Option ℤ :=
  if 0 < totalFrames then some ⌊progressPercent / 100 * (totalFrames : ℚ)⌋ else none

/-- The sequence of externally displayed `progress` values produced by
feeding the given snapshots, in order, through the `onProgress` callback. -/
def displayedProgress (s : DashState) : List ProcessingStatus → List ℚ
  | [] => []
  | st :: rest =>
    let s1 := applyOnProgress s st
    s1.progress :: displayedProgress s1 rest

/-- Shallow embedding of `handleVideoUpload` (TacticalDashboard.tsx).
Returns the new dashboard state, the list of backend requests issued, and
the toasts shown. A disconnected backend aborts before any network call;
otherwise `api.uploadVideo` is awaited and, on success, the local state is
reset for the new asset (note: `isProcessing` and `totalFrames` are not
touched, and nothing cancels a running poll). -/
def handleVideoUpload (s : DashState) (file : VideoFile)
    (b : FetchOutcome UploadResponse) : DashState × List String × List Toast :=
  if s.backendConnected = false then
    (s, [], [⟨true, "Backend Unavailable", "Cannot upload video. Backend server is not running."⟩])
  else
    match uploadVideo b with
    | .ok r =>
      ({ s with uploadedVideo := some file, videoUrl := objectUrlOf file,
                status := Status.idle, progress := 0, currentFrame := 0,
                detectedTargets := 0, detectionSummary := none },
       ["/upload-video"],
       [⟨false, "Video Uploaded", r.filename ++ " ready for CV/SLAM analysis"⟩])
    | .error e =>
      (s, ["/upload-video"], [⟨true, "Upload Failed", jsMessage e⟩])

/-- Transcription of `file.type.startsWith('video/')` (VideoUpload.tsx),
rendered on the character list of the declared media type. -/
def declaresVideoType (t : String) : Bool :=
  t.data.take 6 == "video/".data

/-- Shallow embedding of `onDrop` (VideoUpload.tsx) composed with the
dashboard's `onVideoUpload` callback: with at least one accepted file, the
media type is checked first; only a file whose declared type starts with
`video/` reaches `handleVideoUpload` (and hence the network). No size or
emptiness check exists anywhere on this path. -/
def onDrop (s : DashState) (acceptedFiles : List VideoFile)
    (b : FetchOutcome UploadResponse) : DashState × List String × List Toast :=
  match acceptedFiles with
  | [] => (s, [], [])
  | file :: _ =>
    if declaresVideoType file.type then
      let r := handleVideoUpload s file b
      (r.1, r.2.1, ⟨false, "Video Uploaded", file.name ++ " ready for processing"⟩ :: r.2.2)
    else
      (s, [], [⟨true, "Invalid File Type", "Please upload a video file (MP4, AVI, MOV, etc.)"⟩])

/-- The scripted backend behavior one `handleStartProcessing` run can
observe: the outcome of POST /start-processing, the outcomes of the
successive GET /processing-status requests, and the outcome of
GET /detections. -/
structure BackendScript where
  startOutcome : FetchOutcome StartResponse
  pollResponses : List (FetchOutcome ProcessingStatus)
  detectionsOutcome : FetchOutcome DetectionSummary

/-- Shallow embedding of `handleStartProcessing` (TacticalDashboard.tsx),
including its poll and result-aggregation continuations. Guards, in source
order: a missing video aborts with a destructive toast, a disconnected
backend aborts with a destructive toast — and nothing else is checked (in
particular `isProcessing` is not). Then POST /start-processing is awaited;
on success the processing state is entered, the poll runs feeding every
snapshot through `applyOnProgress`, and on poll resolution the state is
completed and GET /detections is awaited (its failure only logs). Poll
rejection sets the error state. -/
def handleStartProcessing (s : DashState) (b : BackendScript) :
    DashState × List String × List Toast :=
  match s.uploadedVideo with
  | none =>
    (s, [], [⟨true, "No Video Loaded", "Please upload a video file first."⟩])
  | some _ =>
    if s.backendConnected = false then
      (s, [], [⟨true, "Backend Unavailable", "Cannot start processing. Backend server is not running."⟩])
    else
      match (apiRequest b.startOutcome : Except JsError StartResponse) with
      | .error e =>
        (s, ["/start-processing"],
         [⟨true, "Failed to Start Processing", jsMessage e⟩])
      | .ok r =>
        let s1 := { s with isProcessing := true, status := Status.processing,
                           progress := 0, currentFrame := 0, detectedTargets := 0 }
        let t1 : Toast := ⟨false, "Processing Started", r.pipeline ++ " pipeline activated"⟩
        let run := pollProcessingStatus b.pollResponses
        let s2 := run.snapshots.foldl applyOnProgress s1
        let calls := "/start-processing" :: List.replicate run.requests "/processing-status"
        match run.result with
        | none => (s2, calls, [t1])
        | some (.error e) =>
          ({ s2 with isProcessing := false, status := Status.error },
           calls, [t1, ⟨true, "Processing Failed", jsMessage e⟩])
        | some (.ok _) =>
          let s3 := { s2 with isProcessing := false, status := Status.completed, progress := 100 }
          match (apiRequest b.detectionsOutcome : Except JsError DetectionSummary) with
          | .ok d =>
            ({ s3 with detectionSummary := some d, detectedTargets := d.total_count,
                       totalFrames := d.frames_processed },
             calls ++ ["/detections"],
             [t1, ⟨false, "Processing Complete",
                   "Found " ++ toString d.total_count ++ " targets across " ++
                     toString d.frames_processed ++ " frames"⟩])
          | .error _ =>
            (s3, calls ++ ["/detections"], [t1])

/-! ## Interleaving of an upload with a still-running poll -/

/-- An event of the dashboard's event loop while a poll started earlier is
still running: either `handleVideoUpload` completes for a new file, or the
running poll delivers its next snapshot. The source contains no generation
token and no cancellation, so the poll's `onProgress` closure runs
unconditionally whenever a snapshot arrives. -/
inductive DashEvent where
  | upload (file : VideoFile) (b : FetchOutcome UploadResponse)
  | oldPollSnapshot (st : ProcessingStatus)

/-- One event-loop step. The second component accumulates the `onProgress`
invocations of the poll that was started before these events (the old
generation). -/
def dashStep : DashState × List ProcessingStatus → DashEvent → DashState × List ProcessingStatus
  | (s, obs), .upload f b => ((handleVideoUpload s f b).1, obs)
  | (s, obs), .oldPollSnapshot st => (applyOnProgress s st, obs ++ [st])

/-- Run a list of event-loop events from an initial dashboard state. -/
def dashRun (s : DashState) (events : List DashEvent) : DashState × List ProcessingStatus :=
  events.foldl dashStep (s, [])

/-! ## ResultAggregator: api.getDetections -/

/-- Shallow embedding of `api.getDetections` with an explicit network-call
counter: the body is a single `apiRequest('/detections')`, so every
invocation issues exactly one request; no cache of any kind exists in the
code. -/
def getDetections (calls : ℕ) (b : FetchOutcome DetectionSummary) :
    Except JsError DetectionSummary × ℕ :=
  (apiRequest b, calls + 1)

/-- Two consecutive `api.getDetections` calls against a backend that gives
the same response to both requests: the pair of results and the total
number of /detections network requests issued. -/
def getDetectionsTwice (b : FetchOutcome DetectionSummary) :
    (Except JsError DetectionSummary × Except JsError DetectionSummary) × ℕ :=
  let r1 := getDetections 0 b
  let r2 := getDetections r1.2 b
  ((r1.1, r2.1), r2.2)

/-! ## Concrete fixtures used by witnesses and counterexamples -/

/-- A loaded video file. -/
def file0 : VideoFile := ⟨"mission.mp4", 1048576, "video/mp4"⟩

/-- A second video file, uploaded on top of a running job. -/
def file1 : VideoFile := ⟨"followup.mp4", 2048, "video/mp4"⟩

/-- An empty file that still declares a video media type. -/
def emptyFile : VideoFile := ⟨"empty.mp4", 0, "video/mp4"⟩

/-- A file with a non-video media type. -/
def pdfFile : VideoFile := ⟨"report.pdf", 4096, "application/pdf"⟩

/-- A successful response body of POST /upload-video. -/
def uploadResp0 : UploadResponse := ⟨"File uploaded successfully", "followup.mp4", 2048, "ready"⟩

/-- A successful fetch outcome for POST /upload-video. -/
def uploadOk : FetchOutcome UploadResponse := .response 200 "" (.ok uploadResp0)

/-- First scripted poll snapshot: ongoing, progress 10. -/
def snap10 : ProcessingStatus := ⟨true, 10, none, 0, "initializing"⟩

/-- Second scripted poll snapshot: ongoing, progress 55. -/
def snap55 : ProcessingStatus := ⟨true, 55, none, 3, "tracking"⟩

/-- Terminal scripted poll snapshot: stopped, progress 100. -/
def snapDone : ProcessingStatus := ⟨false, 100, none, 7, "complete"⟩

/-- A stale snapshot delivered by an old poll after a new upload. -/
def snap77 : ProcessingStatus := ⟨true, 77, none, 5, "tracking"⟩

/-- A performance block for the detections fixture. -/
def perf0 : Performance := ⟨7, 24, 4 / 5, 1234, 100, 12⟩

/-- A detection summary fixture. -/
def summary0 : DetectionSummary := ⟨[], 7, 100, some "mission.mp4", [], perf0⟩

/-- A successful fetch outcome for GET /detections. -/
def detectionsOk : FetchOutcome DetectionSummary := .response 200 "" (.ok summary0)

/-- A successful fetch outcome for POST /start-processing. -/
def startOk : FetchOutcome StartResponse :=
  .response 200 "" (.ok ⟨"Processing started", "mission.mp4", "running", "CV/SLAM"⟩)

/-- A backend script on which everything succeeds and the first poll
response is already terminal. -/
def okScript : BackendScript := ⟨startOk, [okStatusOutcome snapDone], detectionsOk⟩

/-- A dashboard mid-job: video loaded, backend connected, a job currently
processing at 40 percent. -/
def midJobState : DashState :=
  ⟨some file0, "blob:mission.mp4", true, 40, 0, 0, 2, Status.processing, none, true⟩

/-- A connected dashboard with no video loaded. -/
def idleConnectedState : DashState :=
  ⟨none, "", false, 0, 0, 0, 0, Status.idle, none, true⟩

/-- A dashboard with a video loaded but a disconnected backend. -/
def disconnectedState : DashState :=
  ⟨some file0, "blob:mission.mp4", false, 0, 0, 0, 0, Status.idle, none, false⟩

/-- A probe whose fetch settles successfully only after 10000 ms. -/
def lateProbe : TimedProbe :=
  ⟨10000, .response 200 "" (.ok ⟨"CV/SLAM Backend Operational", "healthy"⟩)⟩

/-! ## Helper lemmas -/

theorem apiRequest_okStatusOutcome (st : ProcessingStatus) :
    (apiRequest (okStatusOutcome st) : Except JsError ProcessingStatus) = .ok st := rfl

theorem applyOnProgress_progress (s : DashState) (st : ProcessingStatus) :
    (applyOnProgress s st).progress = st.progress := by
  unfold applyOnProgress
  dsimp only
  split <;> rfl

theorem applyOnProgress_currentFrame (s : DashState) (st : ProcessingStatus) :
    (applyOnProgress s st).currentFrame =
      (estimateFrame st.progress s.totalFrames).getD s.currentFrame := by
  unfold applyOnProgress estimateFrame
  split <;> simp_all

/-! ## Claims -/

/-- C6: estimateFrame is a pure function computing
floor(progressPercent / 100 * totalFrames); for progress in the backend's
documented range 0..100 the result lies in the interval from 0 to
totalFrames; when totalFrames is 0 no frame value is produced (the update
is skipped, never conflated with frame 0); and in particular
estimateFrame 50 8450 = 4225, estimateFrame 100 8450 = 8450, and
estimateFrame p 0 yields no value. -/
theorem c6_estimateFrame_spec (p : ℚ) (tf : ℕ) (hp0 : 0 ≤ p) (hp1 : p ≤ 100) :
    (0 < tf → estimateFrame p tf = some ⌊p / 100 * (tf : ℚ)⌋) ∧
    (∀ k, estimateFrame p tf = some k → 0 ≤ k ∧ k ≤ (tf : ℤ)) ∧
    estimateFrame p 0 = none ∧
    estimateFrame 50 8450 = some 4225 ∧
    estimateFrame 100 8450 = some 8450 := by
  refine ⟨?_, ?_, ?_, ?_, ?_⟩
  · intro htf
    simp [estimateFrame, htf]
  · intro k hk
    unfold estimateFrame at hk
    by_cases htf : 0 < tf
    · simp only [htf, if_true, Option.some.injEq] at hk
      subst hk
      constructor
      · exact Int.floor_nonneg.mpr
          (mul_nonneg (div_nonneg hp0 (by norm_num)) (Nat.cast_nonneg tf))
      · have h1 : p / 100 ≤ 1 := by
          rw [div_le_one (by norm_num : (0:ℚ) < 100)]
          exact hp1
        have h2 : p / 100 * (tf : ℚ) ≤ (tf : ℚ) :=
          mul_le_of_le_one_left (Nat.cast_nonneg tf) h1
        calc ⌊p / 100 * (tf : ℚ)⌋ ≤ ⌊(tf : ℚ)⌋ := Int.floor_le_floor h2
          _ = (tf : ℤ) := Int.floor_natCast tf
    · simp [htf] at hk
  · simp [estimateFrame]
  · rw [estimateFrame, if_pos (by norm_num), show (50:ℚ) / 100 * (8450:ℕ) = ((4225:ℤ) : ℚ) by norm_num, Int.floor_intCast]
  · rw [estimateFrame, if_pos (by norm_num), show (100:ℚ) / 100 * (8450:ℕ) = ((8450:ℤ) : ℚ) by norm_num, Int.floor_intCast]

/-- Witness for C6 at concrete inputs. -/
theorem c6_estimateFrame_spec_witness :
    estimateFrame 50 8450 = some 4225 ∧ estimateFrame 50 0 = none :=
  ⟨(c6_estimateFrame_spec 50 8450 (by norm_num) (by norm_num)).2.2.2.1,
   (c6_estimateFrame_spec 50 0 (by norm_num) (by norm_num)).2.2.1⟩

/-- C2: for any scripted backend status sequence consisting of ongoing
statuses followed by a first stopped status, the poller invokes onSnapshot
once per response in arrival order (including the terminal one), stops at
the first stopped status (issuing no request for anything scripted after
it), and resolves exactly once with that terminal status. -/
theorem c2_poller_in_order (ss : List ProcessingStatus) (st : ProcessingStatus)
    (rest : List (FetchOutcome ProcessingStatus))
    (hss : ∀ u ∈ ss, u.is_processing = true) (hst : st.is_processing = false) :
    pollProcessingStatus (ss.map okStatusOutcome ++ okStatusOutcome st :: rest) =
      ⟨ss ++ [st], some (Except.ok st), ss.length + 1⟩ := by
  induction ss with
  | nil =>
    simp [pollProcessingStatus, apiRequest_okStatusOutcome, hst]
  | cons u us ih =>
    have hu := hss u (List.mem_cons_self u us)
    have ihh := ih fun v hv => hss v (List.mem_cons_of_mem u hv)
    simp [pollProcessingStatus, apiRequest_okStatusOutcome, hu, ihh]

/-- Witness for C2: the scripted sequence of the spec (progress 10, 55,
then stopped at 100) produces exactly three snapshots in order and one
success with the third status, over three requests. -/
theorem c2_poller_in_order_witness :
    pollProcessingStatus
        [okStatusOutcome snap10, okStatusOutcome snap55, okStatusOutcome snapDone] =
      ⟨[snap10, snap55, snapDone], some (Except.ok snapDone), 3⟩ := by
  have h := c2_poller_in_order [snap10, snap55] snapDone []
    (by
      intro u hu
      rcases List.mem_cons.mp hu with rfl | hu
      · rfl
      rcases List.mem_cons.mp hu with rfl | hu
      · rfl
      cases hu)
    rfl
  simpa using h

/-- C3: the polling loop never has two status requests in flight at once:
in every prefix of the scheduling trace of poll, the number of requests
issued exceeds the number of requests settled by at most one (and never
lags behind it), i.e. a new request is only issued after the previous one
has resolved. -/
theorem c3_one_request_in_flight (intervalMs i n : ℕ)
    (rs : List (FetchOutcome ProcessingStatus)) :
    ((pollEvents intervalMs i rs).take n).countP isRequestEv ≤
       ((pollEvents intervalMs i rs).take n).countP isSettleEv + 1 ∧
    ((pollEvents intervalMs i rs).take n).countP isSettleEv ≤
       ((pollEvents intervalMs i rs).take n).countP isRequestEv := by
  induction rs generalizing i n with
  | nil => simp [pollEvents]
  | cons r rest ih =>
    rcases hr : (apiRequest r : Except JsError ProcessingStatus) with e | st
    · rcases n with _ | (_ | n) <;>
        simp [pollEvents, hr, isRequestEv, isSettleEv]
    · rcases hp : st.is_processing with _ | _
      · rcases n with _ | (_ | (_ | n)) <;>
          simp [pollEvents, hr, hp, isRequestEv, isSettleEv]
      · rcases n with _ | (_ | (_ | (_ | n)))
        · simp
        · simp [pollEvents, hr, hp, isRequestEv, isSettleEv]
        · simp [pollEvents, hr, hp, isRequestEv, isSettleEv]
        · simp [pollEvents, hr, hp, isRequestEv, isSettleEv]
        · have h := ih (i + 1) n
          simp only [pollEvents, hr, hp, List.take_succ_cons, List.countP_cons,
            isRequestEv, isSettleEv, if_true, if_false] at h ⊢
          omega

/-- C1 counterexample: from a state whose job is Processing, an accepted
submitVideo (upload succeeds, asset replaced, progress reset to 0) does not
silence the running poll: the old poll's next snapshot is still observed as
an onSnapshot invocation and mutates job state, driving the displayed
progress from 0 back up to the stale 77. This contradicts the claim that no
old-generation onSnapshot is observed and stale results are discarded
without mutating job state. -/
theorem c1_counterexample :
    (handleVideoUpload midJobState file1 uploadOk).1.uploadedVideo = some file1 ∧
    (dashRun midJobState [DashEvent.upload file1 uploadOk]).1.progress = 0 ∧
    (dashRun midJobState
        [DashEvent.upload file1 uploadOk, DashEvent.oldPollSnapshot snap77]).2 = [snap77] ∧
    (dashRun midJobState
        [DashEvent.upload file1 uploadOk, DashEvent.oldPollSnapshot snap77]).1.progress = 77 :=
  ⟨rfl, rfl, rfl, rfl⟩

/-- C1 amended: the code holds no generation token, so an accepted
submitVideo during Processing does not invalidate the running poll. The
upload replaces the asset and resets the displayed progress, and then every
snapshot the old poll delivers is still observed by onSnapshot and
overwrites job state with the stale progress value. -/
theorem c1_no_generation_token (s : DashState) (f : VideoFile)
    (b : FetchOutcome UploadResponse) (st : ProcessingStatus) (r : UploadResponse)
    (hconn : s.backendConnected = true) (hok : uploadVideo b = .ok r) :
    (dashRun s [DashEvent.upload f b]).1.uploadedVideo = some f ∧
    (dashRun s [DashEvent.upload f b]).1.progress = 0 ∧
    (dashRun s [DashEvent.upload f b, DashEvent.oldPollSnapshot st]).2 = [st] ∧
    (dashRun s [DashEvent.upload f b, DashEvent.oldPollSnapshot st]).1.progress
      = st.progress := by
  refine ⟨?_, ?_, ?_, ?_⟩
  · simp [dashRun, dashStep, handleVideoUpload, hconn, hok]
  · simp [dashRun, dashStep, handleVideoUpload, hconn, hok]
  · simp [dashRun, dashStep]
  · simp [dashRun, dashStep, applyOnProgress_progress]

/-- Witness for C1 amended at a concrete mid-job state. -/
theorem c1_no_generation_token_witness :
    (dashRun midJobState [DashEvent.upload file1 uploadOk]).1.uploadedVideo = some file1 ∧
    (dashRun midJobState [DashEvent.upload file1 uploadOk]).1.progress = 0 ∧
    (dashRun midJobState
        [DashEvent.upload file1 uploadOk, DashEvent.oldPollSnapshot snap77]).2 = [snap77] ∧
    (dashRun midJobState
        [DashEvent.upload file1 uploadOk, DashEvent.oldPollSnapshot snap77]).1.progress
      = snap77.progress :=
  c1_no_generation_token midJobState file1 uploadOk snap77 uploadResp0 rfl rfl

/-- C4 counterexample: with a video loaded, the backend connected, and a
job already Processing (isProcessing is true), start() does not fail with a
PreconditionError: it issues the POST /start-processing request (and a full
second polling sequence) and raises no destructive toast at all. -/
theorem c4_counterexample :
    midJobState.isProcessing = true ∧
    (handleStartProcessing midJobState okScript).2.1 =
      ["/start-processing", "/processing-status", "/detections"] ∧
    ((handleStartProcessing midJobState okScript).2.2.all fun t => !t.destructive) = true :=
  ⟨rfl, rfl, rfl⟩

/-- C4 amended: only two guards exist. start() with no asset fails with a
destructive error toast and leaves the state unchanged; start() with the
connectivity flag false likewise fails and leaves the state unchanged; but
no guard rejects a start while a job is already Starting or Processing —
such a call proceeds and issues another /start-processing request (the UI
merely disables the button while isProcessing). -/
theorem c4_start_guards (s : DashState) (b : BackendScript) :
    (s.uploadedVideo = none →
       handleStartProcessing s b =
         (s, [], [⟨true, "No Video Loaded", "Please upload a video file first."⟩])) ∧
    (∀ f, s.uploadedVideo = some f → s.backendConnected = false →
       handleStartProcessing s b =
         (s, [], [⟨true, "Backend Unavailable",
                   "Cannot start processing. Backend server is not running."⟩])) ∧
    (∀ f, s.uploadedVideo = some f → s.backendConnected = true →
       s.isProcessing = true →
       (handleStartProcessing s b).2.1.take 1 = ["/start-processing"]) := by
  refine ⟨?_, ?_, ?_⟩
  · intro h
    simp [handleStartProcessing, h]
  · intro f hf hc
    simp [handleStartProcessing, hf, hc]
  · intro f hf hc _
    simp only [handleStartProcessing, hf, hc]
    rcases hs : (apiRequest b.startOutcome : Except JsError StartResponse) with e | r
    · simp [hs]
    · simp only [hs]
      rcases hres : (pollProcessingStatus b.pollResponses).result with _ | x
      · simp [hres]
      · rcases x with e | st
        · simp [hres]
        · rcases hd : (apiRequest b.detectionsOutcome : Except JsError DetectionSummary)
            with e | d <;> simp [hres, hd]

/-- Witness for C4 amended: all three guards exercised at concrete states. -/
theorem c4_start_guards_witness :
    handleStartProcessing idleConnectedState okScript =
      (idleConnectedState, [],
       [⟨true, "No Video Loaded", "Please upload a video file first."⟩]) ∧
    handleStartProcessing disconnectedState okScript =
      (disconnectedState, [],
       [⟨true, "Backend Unavailable",
         "Cannot start processing. Backend server is not running."⟩]) ∧
    (handleStartProcessing midJobState okScript).2.1.take 1 = ["/start-processing"] :=
  ⟨(c4_start_guards idleConnectedState okScript).1 rfl,
   (c4_start_guards disconnectedState okScript).2.1 file0 rfl rfl,
   (c4_start_guards midJobState okScript).2.2 file0 rfl rfl rfl⟩

/-- C5 counterexample: the onProgress callback does not clamp. Fed the
backend snapshots with progress 55 and then 10, the externally displayed
progress sequence is 55 followed by 10: it decreases, contradicting the
claimed monotonic clamp to the prior maximum. -/
theorem c5_counterexample :
    displayedProgress midJobState [snap55, snap10] = [55, 10] ∧ (10 : ℚ) < 55 :=
  ⟨rfl, by norm_num⟩

/-- C5 amended: the displayed progressPercent mirrors the backend exactly:
after each snapshot it equals that snapshot's reported progress, with no
clamping, so it decreases whenever the backend reports a lower value. -/
theorem c5_progress_mirrors_backend (s : DashState) (snaps : List ProcessingStatus) :
    displayedProgress s snaps = snaps.map fun st => st.progress := by
  induction snaps generalizing s with
  | nil => rfl
  | cons st rest ih => simp [displayedProgress, applyOnProgress_progress, ih]

/-- C7 counterexample: two consecutive getDetections calls for the same
completed job issue two /detections network requests, not one — there is
no cache in the code (both calls do return the same summary only because
the backend answers both requests identically). -/
theorem c7_counterexample :
    (getDetectionsTwice detectionsOk).2 = 2 ∧
    (getDetectionsTwice detectionsOk).2 ≠ 1 ∧
    (getDetectionsTwice detectionsOk).1.1 = Except.ok summary0 ∧
    (getDetectionsTwice detectionsOk).1.2 = Except.ok summary0 :=
  ⟨rfl, by decide, rfl, rfl⟩

/-- C7 amended: getDetections performs one network request on every
invocation (no cache exists), so two calls issue exactly two requests; both
calls return the result of the same apiRequest, hence structurally
identical values whenever the backend answers both requests identically. -/
theorem c7_every_call_fetches (b : FetchOutcome DetectionSummary) :
    (getDetectionsTwice b).2 = 2 ∧
    (getDetectionsTwice b).1.1 = apiRequest b ∧
    (getDetectionsTwice b).1.2 = apiRequest b :=
  ⟨rfl, rfl, rfl⟩

/-- C8 counterexample: a connectivity probe whose fetch settles
successfully only after 10000 ms — well past the claimed 5000 ms deadline —
resolves to the successful health payload, not to Unavailable(Timeout):
no deadline exists anywhere in apiRequest or healthCheck. -/
theorem c8_counterexample :
    5000 < lateProbe.latencyMs ∧
    healthCheck lateProbe = Except.ok ⟨"CV/SLAM Backend Operational", "healthy"⟩ :=
  ⟨by decide, rfl⟩

/-- C8 amended: the probe has no deadline — its result is determined by the
fetch outcome alone, independent of how long the fetch takes; it remains
true that a start() issued while the connectivity flag is false fails with
the Backend Unavailable error without issuing any backend request. -/
theorem c8_probe_has_no_deadline (t1 t2 : ℕ) (o : FetchOutcome HealthResponse)
    (s : DashState) (b : BackendScript) (f : VideoFile) :
    healthCheck ⟨t1, o⟩ = healthCheck ⟨t2, o⟩ ∧
    (s.uploadedVideo = some f → s.backendConnected = false →
       handleStartProcessing s b =
         (s, [], [⟨true, "Backend Unavailable",
                   "Cannot start processing. Backend server is not running."⟩])) := by
  constructor
  · rfl
  · intro hf hc
    simp [handleStartProcessing, hf, hc]

/-- Witness for C8 amended: latency 10000 versus 0 yields the same probe
result, and a disconnected start fails without a backend request. -/
theorem c8_probe_has_no_deadline_witness :
    healthCheck ⟨10000, lateProbe.outcome⟩ = healthCheck ⟨0, lateProbe.outcome⟩ ∧
    handleStartProcessing disconnectedState okScript =
      (disconnectedState, [],
       [⟨true, "Backend Unavailable",
         "Cannot start processing. Backend server is not running."⟩]) :=
  ⟨(c8_probe_has_no_deadline 10000 0 lateProbe.outcome disconnectedState okScript file0).1,
   (c8_probe_has_no_deadline 10000 0 lateProbe.outcome disconnectedState okScript file0).2
     rfl rfl⟩

/-- C9 counterexample: an empty file (size 0) that declares a video media
type is not rejected: the drop handler forwards it and the
/upload-video network request is issued with no validation error — the
claimed non-emptiness constraint is checked nowhere. -/
theorem c9_counterexample :
    emptyFile.size = 0 ∧
    (onDrop idleConnectedState [emptyFile] uploadOk).2.1 = ["/upload-video"] ∧
    ((onDrop idleConnectedState [emptyFile] uploadOk).2.2.all fun t => !t.destructive)
      = true :=
  ⟨rfl, rfl, rfl⟩

/-- C9 amended: only the media-type constraint is validated before any
network call: a dropped file whose declared type does not start with video/
fails fast with the Invalid File Type error and no network request, while
any file declaring a video type — empty or not — proceeds to the
/upload-video network request. -/
theorem c9_only_type_checked (s : DashState) (file : VideoFile)
    (rest : List VideoFile) (b : FetchOutcome UploadResponse)
    (hconn : s.backendConnected = true) :
    (declaresVideoType file.type = false →
       onDrop s (file :: rest) b =
         (s, [], [⟨true, "Invalid File Type",
                   "Please upload a video file (MP4, AVI, MOV, etc.)"⟩])) ∧
    (declaresVideoType file.type = true →
       (onDrop s (file :: rest) b).2.1 = ["/upload-video"]) := by
  constructor
  · intro h
    simp [onDrop, h]
  · intro h
    simp only [onDrop, h, if_true]
    rcases hb : uploadVideo b with e | r <;>
      simp [handleVideoUpload, hconn, hb]

/-- Witness for C9 amended: a pdf is rejected with no network call; an
empty video-typed file goes to the network. -/
theorem c9_only_type_checked_witness :
    onDrop idleConnectedState [pdfFile] uploadOk =
      (idleConnectedState, [],
       [⟨true, "Invalid File Type", "Please upload a video file (MP4, AVI, MOV, etc.)"⟩]) ∧
    (onDrop idleConnectedState [emptyFile] uploadOk).2.1 = ["/upload-video"] :=
  ⟨(c9_only_type_checked idleConnectedState pdfFile [] uploadOk rfl).1 rfl,
   (c9_only_type_checked idleConnectedState emptyFile [] uploadOk rfl).2 rfl⟩

/-- C10 counterexample: api.uploadVideo performs its own fetch with no
try/catch, so a transport-level failure escapes as the raw error, not as an
ApiError — refuting the claim that every failure thrown by an api method
surfaces as an ApiError. -/
theorem c10_counterexample :
    uploadVideo (FetchOutcome.transportError "Failed to fetch") =
      Except.error (JsError.otherError "Failed to fetch") ∧
    isApiError (JsError.otherError "Failed to fetch") = false :=
  ⟨rfl, rfl⟩

/-- C10 amended: every failure of apiRequest (used by all api methods
except uploadVideo) is an ApiError: a non-2xx response yields
ApiError(status, bodyText) whenever the body is non-empty (with an
HTTP-status fallback message when it is empty), and a transport failure or
a JSON parse failure yields ApiError(0, Network error: message); uploadVideo
however wraps only non-2xx responses and lets raw errors escape. -/
theorem c10_apiRequest_errors_are_apiError {T : Type} (o : FetchOutcome T) (e : JsError)
    (h : apiRequest o = Except.error e) :
    isApiError e = true ∧
    (∀ m, o = FetchOutcome.transportError m →
       e = JsError.apiError 0 ("Network error: " ++ m)) ∧
    (∀ status bodyText p, o = FetchOutcome.response status bodyText p →
       responseOk status = false → bodyText ≠ "" →
       e = JsError.apiError status bodyText) ∧
    (∀ status bodyText m, o = FetchOutcome.response status bodyText (Except.error m) →
       responseOk status = true →
       e = JsError.apiError 0 ("Network error: " ++ m)) := by
  rcases o with m | ⟨status, bodyText, p⟩
  · simp only [apiRequest, Except.error.injEq] at h
    subst h
    refine ⟨rfl, ?_, ?_, ?_⟩ <;> intros <;> simp_all
  · rcases hok : responseOk status with _ | _
    · simp only [apiRequest, hok, Bool.false_eq_true, if_false, Except.error.injEq] at h
      subst h
      refine ⟨rfl, ?_, ?_, ?_⟩
      · intro m hm
        cases hm
      · intro status' body' p' heq hok' hne
        cases heq
        simp [hne]
      · intro status' body' m heq hok'
        cases heq
        rw [hok] at hok'
        cases hok'
    · rcases p with m | v
      · simp only [apiRequest, hok, if_true, Except.error.injEq] at h
        subst h
        refine ⟨rfl, ?_, ?_, ?_⟩
        · intro m' hm
          cases hm
        · intro status' body' p' heq hok' hne
          cases heq
          rw [hok] at hok'
          cases hok'
        · intro status' body' m' heq hok'
          cases heq
          rfl
      · simp [apiRequest, hok] at h

/-- Witness for C10 amended at a concrete transport failure. -/
theorem c10_apiRequest_errors_are_apiError_witness :
    isApiError (JsError.apiError 0 ("Network error: " ++ "Failed to fetch")) = true :=
  (c10_apiRequest_errors_are_apiError
    (FetchOutcome.transportError "Failed to fetch" : FetchOutcome HealthResponse)
    (JsError.apiError 0 ("Network error: " ++ "Failed to fetch")) rfl).1

end KombatVision
